import Mathlib

/-!
# A shallow embedding of `redis_lock` (python-redis-lock 4.0.0)

This file models the core of `src/redis_lock/__init__.py`: the four Lua
scripts (`UNLOCK_SCRIPT`, `EXTEND_SCRIPT`, `RESET_SCRIPT`), the `Lock`
constructor, and the lifecycle operations `acquire`, `release`, `extend`,
`reset`, together with the context-manager protocol.

Redis state for a single lock name `N` is modelled by `RedisState`:
the string key `lock:N` (value and TTL) and the list key `lock-signal:N`
(contents and TTL in milliseconds).  Python numbers passed to the
constructor and to `acquire`/`extend` are modelled by rationals (for
`expire`, which the code truncates with `int(...)`) and integers (for
`timeout`).  Python truthiness (`if expire:`, `and timeout`) is modelled
explicitly.  The non-deterministic interaction with the server inside the
acquisition loop (the result of each `SET NX` and each `BLPOP`) is
modelled by a finite trace of oracle steps.
-/

namespace RedisLock

/-- Python `int(q)` on a number: truncation toward zero. -/
def pyInt (q : ℚ) : ℤ := Int.sign q.num * (q.num.natAbs / q.den : ℕ)

/-- Python truthiness of an optional number (`None` and `0` are falsy). -/
def pyTruthyQ : Option ℚ → Bool
  | none => false
  | some q => q != 0

/-- Python truthiness of an optional integer (`None` and `0` are falsy). -/
def pyTruthyZ : Option ℤ → Bool
  | none => false
  | some z => z != 0

/-! ## base64 (as used by `base64.b64encode`) -/

/-- The standard base64 alphabet. -/
def b64Alphabet : List Char :=
  "ABCDEFGHIJKLMNOPQRSTUVWXYZabcdefghijklmnopqrstuvwxyz0123456789+/".data

/-- Character of the base64 alphabet at a sextet index. -/
def b64char (i : ℕ) : Char := b64Alphabet.getD i 'A'

/-- Index of a character in the base64 alphabet. -/
def b64idx (c : Char) : ℕ := b64Alphabet.indexOf c

/-- `base64.b64encode` on a byte sequence (bytes as naturals below 256). -/
def b64encode : List ℕ → List Char
  | [] => []
  | [a] => [b64char (a / 4), b64char (a % 4 * 16), '=', '=']
  | [a, b] => [b64char (a / 4), b64char (a % 4 * 16 + b / 16), b64char (b % 16 * 4), '=']
  | a :: b :: c :: rest =>
      b64char (a / 4) :: b64char (a % 4 * 16 + b / 16) ::
      b64char (b % 16 * 4 + c / 64) :: b64char (c % 64) :: b64encode rest

/-- base64 decoding; a left inverse of `b64encode` used to show that
encoding loses no information. -/
def b64decode : List Char → List ℕ
  | w :: x :: y :: z :: rest =>
      if y = '=' then [b64idx w * 4 + b64idx x / 16]
      else if z = '=' then
        [b64idx w * 4 + b64idx x / 16, b64idx x % 16 * 16 + b64idx y / 4]
      else
        (b64idx w * 4 + b64idx x / 16) :: (b64idx x % 16 * 16 + b64idx y / 4) ::
        (b64idx y % 4 * 64 + b64idx z) :: b64decode rest
  | _ => []

/-! ## Server-side state and the Lua scripts -/

/-- Redis state restricted to one lock name: the `lock:N` string key
(holder value and TTL in seconds) and the `lock-signal:N` list key
(elements and TTL in milliseconds).  `lockTTL = none` means the key is
persistent; the key exists iff `lockVal ≠ none`. -/
structure RedisState where
  lockVal : Option String
  lockTTL : Option ℤ
  signal : List ℕ
  signalTTL : Option ℤ
deriving DecidableEq, Repr

/-- `TTL lock:N`: `-2` when the key is absent, `-1` when it has no TTL. -/
def redisTTL (st : RedisState) : ℤ :=
  match st.lockVal with
  | none => -2
  | some _ =>
    match st.lockTTL with
    | none => -1
    | some t => t

/-- `UNLOCK_SCRIPT`: check the id; on match, flush and re-arm the signal
list, expire it, delete the lock key and return 0; otherwise return 1.
(Lua `GET` of an absent key returns `false`, which never equals the id.) -/
def unlockScript (st : RedisState) (id : String) (signalExpireMs : ℤ) : RedisState × ℕ :=
  if st.lockVal ≠ some id then (st, 1)
  else ({ lockVal := none, lockTTL := none, signal := [1], signalTTL := some signalExpireMs }, 0)

/-- `EXTEND_SCRIPT`: check the id, then the TTL; on success set the new
expiry and return 0. -/
def extendScript (st : RedisState) (id : String) (newExpire : ℤ) : RedisState × ℕ :=
  if st.lockVal ≠ some id then (st, 1)
  else if redisTTL st < 0 then (st, 2)
  else ({ st with lockTTL := some newExpire }, 0)

/-- `RESET_SCRIPT`: flush and re-arm the signal list, expire it, delete the
lock key unconditionally and return the number of keys deleted.  `ARGV[1]`
(the caller's id) is not consulted. -/
def resetScript (st : RedisState) (_id : String) (signalExpireMs : ℤ) : RedisState × ℕ :=
  ({ lockVal := none, lockTTL := none, signal := [1], signalTTL := some signalExpireMs },
   if st.lockVal.isSome then 1 else 0)

/-! ## The `Lock` handle -/

/-- Python exceptions raised by the module (plus `ValueError`, `TypeError`
and `AssertionError` from the standard library). -/
inductive PyError where
  | alreadyAcquired
  | notAcquired
  | timeoutNotUsable
  | invalidTimeout
  | timeoutTooLarge
  | notExpirable
  | runtimeError (code : ℕ)
  | valueError
  | typeError
  | assertionError
deriving DecidableEq, Repr

/-- The `id` constructor argument: `None`, `bytes`, or `str`. -/
inductive PyId where
  | noId
  | ofBytes (bs : List ℕ)
  | ofStr (s : String)
deriving DecidableEq, Repr

/-- Client-side state of a `Lock` handle after construction. -/
structure LockState where
  expire : Option ℤ
  id : String
  renewalInterval : Option ℚ
  signalExpire : ℤ
deriving DecidableEq, Repr

/-- Resolution of a `bytes` id: `id.decode('ascii')` when every byte is
ASCII, else (on `UnicodeDecodeError`) `b64encode(id).decode('ascii')`. -/
def idFromBytes (bs : List ℕ) : String :=
  if bs.all (fun b => b < 128) then String.mk (bs.map Char.ofNat)
  else String.mk (b64encode bs)

/-- The id generated when none is supplied:
`b64encode(urandom(18)).decode('ascii')`, as a function of the random
bytes drawn. -/
def freshId (randomBytes : List ℕ) : String := String.mk (b64encode randomBytes)

/-- Resolution of the `id` constructor argument. -/
def resolveId (randomBytes : List ℕ) : PyId → String
  | .noId => freshId randomBytes
  | .ofBytes bs => idFromBytes bs
  | .ofStr s => s

/-- `Lock.__init__`: validates `auto_renewal`/`expire`, truncates a truthy
`expire` with `int(...)` (rejecting a negative result), stores `None` for a
falsy one, resolves the id and computes the renewal interval
`float(expire) * 2 / 3` (where `float(None)` is a `TypeError`). -/
def lockInit (randomBytes : List ℕ) (expire : Option ℚ) (idArg : PyId)
    (autoRenewal : Bool) (signalExpire : ℤ) : Except PyError LockState :=
  if autoRenewal ∧ expire = none then .error .valueError
  else
    let expireStep : Except PyError (Option ℤ) :=
      if pyTruthyQ expire then
        if pyInt (expire.getD 0) < 0 then .error .valueError
        else .ok (some (pyInt (expire.getD 0)))
      else .ok none
    match expireStep with
    | .error e => .error e
    | .ok expireZ =>
      let id := resolveId randomBytes idArg
      let intervalStep : Except PyError (Option ℚ) :=
        if autoRenewal then
          match expireZ with
          | none => .error .typeError
          | some e => .ok (some ((e : ℚ) * 2 / 3))
        else .ok none
      match intervalStep with
      | .error e => .error e
      | .ok interval =>
        .ok { expire := expireZ, id := id, renewalInterval := interval, signalExpire := signalExpire }

/-- `Lock.get_owner_id`: the value currently stored under `lock:N`. -/
def getOwnerId (st : RedisState) : Option String := st.lockVal

/-- The `Lock._held` property: `self.id == self.get_owner_id()`. -/
def lockHeld (L : LockState) (st : RedisState) : Bool := getOwnerId st = some L.id

/-- `Lock.reset`: run `RESET_SCRIPT` with the handle's id and signal expiry. -/
def lockReset (st : RedisState) (id : String) (signalExpireMs : ℤ) : RedisState :=
  (resetScript st id signalExpireMs).1

/-- The error handling after `UNLOCK_SCRIPT` in `Lock.release`:
`1` raises `NotAcquired`, any other non-zero code a `RuntimeError`. -/
def releaseDispatch (error : ℕ) : Except PyError Unit :=
  if error = 1 then .error .notAcquired
  else if error ≠ 0 then .error (.runtimeError error)
  else .ok ()

/-- `Lock.release`: run `UNLOCK_SCRIPT` and dispatch on its return code. -/
def lockRelease (st : RedisState) (id : String) (signalExpireMs : ℤ) :
    RedisState × Except PyError Unit :=
  let r := unlockScript st id signalExpireMs
  (r.1, releaseDispatch r.2)

/-- The error handling after `EXTEND_SCRIPT` in `Lock.extend`: `1` raises
`NotAcquired`, `2` raises `NotExpirable`, any other non-zero code a
`RuntimeError`. -/
def extendDispatch (error : ℕ) : Except PyError Unit :=
  if error = 1 then .error .notAcquired
  else if error = 2 then .error .notExpirable
  else if error ≠ 0 then .error (.runtimeError error)
  else .ok ()

/-- Resolution of the `expire` argument of `Lock.extend`: a truthy argument
is truncated with `int(...)` (a negative result is a `ValueError`), a falsy
one falls back to the constructor's value, and with neither a `TypeError`
is raised. -/
def extendExpireArg (expireArg : Option ℚ) (selfExpire : Option ℤ) : Except PyError ℤ :=
  if pyTruthyQ expireArg then
    if pyInt (expireArg.getD 0) < 0 then .error .valueError
    else .ok (pyInt (expireArg.getD 0))
  else
    match selfExpire with
    | some e => .ok e
    | none => .error .typeError

/-- The script call and dispatch at the end of `Lock.extend`, after the
`expire` argument has been resolved. -/
def extendCore (st : RedisState) (id : String) (newExpire : ℤ) :
    RedisState × Except PyError Unit :=
  let r := extendScript st id newExpire
  (r.1, extendDispatch r.2)

/-- `Lock.extend`: resolve the `expire` argument, then run `EXTEND_SCRIPT`
and dispatch on its return code. -/
def lockExtend (st : RedisState) (L : LockState) (expireArg : Option ℚ) :
    RedisState × Except PyError Unit :=
  match extendExpireArg expireArg L.expire with
  | .error e => (st, .error e)
  | .ok e => extendCore st L.id e

/-! ## `Lock.acquire` -/

/-- One iteration of the acquisition loop as seen from the client: whether
`SET lock:N id NX EX expire` succeeded and, when `BLPOP` is reached,
whether it returned an element (rather than timing out empty). -/
structure OracleStep where
  setnxOk : Bool
  blpopGot : Bool
deriving DecidableEq, Repr

/-- `timeout or self._expire or 0`: the timeout handed to every `BLPOP`. -/
def blpopTimeout (timeout : Option ℤ) (expire : Option ℤ) : ℤ :=
  if pyTruthyZ timeout then timeout.getD 0
  else if pyTruthyZ expire then expire.getD 0
  else 0

/-- The `while busy` loop of `Lock.acquire`, driven by a finite trace of
oracle steps.  Returns the result of the loop (`none` when the trace ends
with the loop still running) together with the timeouts of the `BLPOP`
calls issued.  `timedOut` models the Python `timed_out` flag, whose value
is `not blpop(...) and timeout` (a truthiness test). -/
def acquireLoop (blocking : Bool) (blpopT : ℤ) (timeoutTruthy : Bool) (timedOut : Bool) :
    List OracleStep → Option Bool × List ℤ
  | [] => (none, [])
  | s :: rest =>
    if s.setnxOk then (some true, [])
    else if timedOut then (some false, [])
    else if blocking then
      let r := acquireLoop blocking blpopT timeoutTruthy (!s.blpopGot && timeoutTruthy) rest
      (r.1, blpopT :: r.2)
    else (some false, [])

/-- The precondition checks at the top of `Lock.acquire`, in source order:
`AlreadyAcquired`, `TimeoutNotUsable`, then (only under `if timeout:`)
`InvalidTimeout` and `TimeoutTooLarge`. -/
def acquireChecks (L : LockState) (st : RedisState) (blocking : Bool)
    (timeout : Option ℤ) : Except PyError Unit :=
  if lockHeld L st then .error .alreadyAcquired
  else if blocking = false ∧ timeout ≠ none then .error .timeoutNotUsable
  else if pyTruthyZ timeout then
    if timeout.getD 0 < 0 then .error .invalidTimeout
    else if pyTruthyZ L.expire ∧ pyTruthyQ L.renewalInterval = false ∧
        L.expire.getD 0 < timeout.getD 0 then .error .timeoutTooLarge
    else .ok ()
  else .ok ()

/-- `Lock.acquire`: the precondition checks followed by the acquisition
loop (the renewal-thread start after a successful loop is not modelled). -/
def lockAcquire (L : LockState) (st : RedisState) (blocking : Bool)
    (timeout : Option ℤ) (trace : List OracleStep) :
    Except PyError (Option Bool × List ℤ) :=
  match acquireChecks L st blocking timeout with
  | .error e => .error e
  | .ok _ => .ok (acquireLoop blocking (blpopTimeout timeout L.expire) (pyTruthyZ timeout) false trace)

/-! ## Context manager -/

/-- `Lock.__enter__`: a blocking `acquire()` with no timeout; a `False`
result is an `AssertionError`.  `ok none` propagates an unfinished trace. -/
def lockEnter (L : LockState) (st : RedisState) (trace : List OracleStep) :
    Except PyError (Option Unit) :=
  match lockAcquire L st true none trace with
  | .error e => .error e
  | .ok (none, _) => .ok none
  | .ok (some acquired, _) =>
    if acquired then .ok (some ()) else .error .assertionError

/-- `Lock.__exit__`: calls `release()` whatever the exception information
passed in is. -/
def lockExit (_excInfo : Option PyError) (st : RedisState) (L : LockState) :
    RedisState × Except PyError Unit :=
  lockRelease st L.id L.signalExpire

/-- Decoding a `bytes` id as the spec's words describe it: ASCII with
invalid bytes replaced by U+FFFD.  Stated for comparison with
`idFromBytes`, which is translated from the source. -/
def asciiDecodeReplace (bs : List ℕ) : String :=
  String.mk (bs.map fun b => if b < 128 then Char.ofNat b else Char.ofNat 0xFFFD)

instance {ε α : Type} [DecidableEq ε] [DecidableEq α] : DecidableEq (Except ε α) := fun a b =>
  match a, b with
  | .ok x, .ok y => decidable_of_iff (x = y) (by simp)
  | .error e, .error f => decidable_of_iff (e = f) (by simp)
  | .ok _, .error _ => isFalse (by simp)
  | .error _, .ok _ => isFalse (by simp)

/-! ## Helper lemmas -/

theorem b64idx_b64char : ∀ i, i < 64 → b64idx (b64char i) = i := by decide

theorem b64char_ne_pad : ∀ i, i < 64 → b64char i ≠ '=' := by decide

theorem b64char_printable (i : ℕ) : 33 ≤ (b64char i).toNat ∧ (b64char i).toNat ≤ 126 := by
  by_cases h : i < 64
  · exact (by decide : ∀ j, j < 64 → 33 ≤ (b64char j).toNat ∧ (b64char j).toNat ≤ 126) i h
  · have hlen : b64Alphabet.length = 64 := by decide
    have hA : b64char i = 'A' := by
      unfold b64char
      exact List.getD_eq_default _ _ (by omega)
    rw [hA]; decide

theorem b64encode_length : ∀ bs : List ℕ, (b64encode bs).length = 4 * ((bs.length + 2) / 3)
  | [] => by simp [b64encode]
  | [_] => by simp [b64encode]
  | [_, _] => by simp [b64encode]
  | _ :: _ :: _ :: rest => by
    have ih := b64encode_length rest
    simp [b64encode, ih]
    omega

theorem b64encode_printable :
    ∀ bs : List ℕ, ∀ c ∈ b64encode bs, 33 ≤ c.toNat ∧ c.toNat ≤ 126
  | [], c, hc => by simp [b64encode] at hc
  | [a], c, hc => by
    simp [b64encode] at hc
    rcases hc with h | h | h <;> subst h <;> first | exact b64char_printable _ | decide
  | [a, b], c, hc => by
    simp [b64encode] at hc
    rcases hc with h | h | h | h <;> subst h <;> first | exact b64char_printable _ | decide
  | a :: b :: d :: rest, c, hc => by
    simp [b64encode] at hc
    rcases hc with h | h | h | h | h
    · subst h; exact b64char_printable _
    · subst h; exact b64char_printable _
    · subst h; exact b64char_printable _
    · subst h; exact b64char_printable _
    · exact b64encode_printable rest c h

theorem b64decode_b64encode :
    ∀ bs : List ℕ, (∀ b ∈ bs, b < 256) → b64decode (b64encode bs) = bs
  | [], _ => rfl
  | [a], h => by
    have ha : a < 256 := h a (by simp)
    have h1 := b64idx_b64char (a / 4) (by omega)
    have h2 := b64idx_b64char (a % 4 * 16) (by omega)
    simp [b64encode, b64decode, h1, h2]
    omega
  | [a, b], h => by
    have ha : a < 256 := h a (by simp)
    have hb : b < 256 := h b (by simp)
    have h1 := b64idx_b64char (a / 4) (by omega)
    have h2 := b64idx_b64char (a % 4 * 16 + b / 16) (by omega)
    have h3 := b64idx_b64char (b % 16 * 4) (by omega)
    have hy := b64char_ne_pad (b % 16 * 4) (by omega)
    simp [b64encode, b64decode, hy, h1, h2, h3]
    omega
  | a :: b :: c :: rest, h => by
    have ha : a < 256 := h a (by simp)
    have hb : b < 256 := h b (by simp)
    have hc : c < 256 := h c (by simp)
    have ih := b64decode_b64encode rest (fun x hx => h x (by simp [hx]))
    have h1 := b64idx_b64char (a / 4) (by omega)
    have h2 := b64idx_b64char (a % 4 * 16 + b / 16) (by omega)
    have h3 := b64idx_b64char (b % 16 * 4 + c / 64) (by omega)
    have h4 := b64idx_b64char (c % 64) (by omega)
    have hy := b64char_ne_pad (b % 16 * 4 + c / 64) (by omega)
    have hz := b64char_ne_pad (c % 64) (by omega)
    simp [b64encode, b64decode, hy, hz, h1, h2, h3, h4, ih]
    omega

theorem pyInt_zero : pyInt 0 = 0 := by decide

theorem pyInt_ne_zero_of_neg {q : ℚ} (h : pyInt q < 0) : q ≠ 0 := by
  intro hq
  rw [hq, pyInt_zero] at h
  exact absurd h (by decide)

/-- Every `BLPOP` issued by the acquisition loop uses the timeout computed
before the loop. -/
theorem acquireLoop_blpop_timeouts :
    ∀ (trace : List OracleStep) (blocking : Bool) (bt : ℤ) (tmo td : Bool),
      ∀ t ∈ (acquireLoop blocking bt tmo td trace).2, t = bt
  | [], _, _, _, _ => by simp [acquireLoop]
  | s :: rest, blocking, bt, tmo, td => by
    intro t ht
    simp only [acquireLoop] at ht
    split_ifs at ht with h1 h2 h3
    · simp at ht
    · simp at ht
    · simp at ht
      rcases ht with h | h
      · exact h
      · exact acquireLoop_blpop_timeouts rest blocking bt tmo _ t h
    · simp at ht

/-- A blocking acquisition whose `timed_out` flag can never become truthy
(falsy `timeout`) never finishes with `False`. -/
theorem acquireLoop_no_false_of_falsy_timeout :
    ∀ (trace : List OracleStep) (bt : ℤ),
      (acquireLoop true bt false false trace).1 ≠ some false
  | [], bt => by simp [acquireLoop]
  | s :: rest, bt => by
    cases hs : s.setnxOk
    · simpa [acquireLoop, hs] using acquireLoop_no_false_of_falsy_timeout rest bt
    · simp [acquireLoop, hs]

/-! ## Claims -/

/-- C1 as stated is false: `reset` runs `RESET_SCRIPT`, which deletes the
lock key without consulting the caller's id.  Concretely, a caller with id
`"a"` resets a lock whose stored value is `"b"`, and the lock key is
deleted even though the stored value differs from the caller's id. -/
theorem C1_reset_counterexample :
    (RedisState.mk (some "b") none [] none).lockVal ≠ some "a" ∧
    (lockReset (RedisState.mk (some "b") none [] none) "a" 1000).lockVal = none :=
  ⟨by decide, rfl⟩

/-- C1 (amended): `release` and the script-driven unlock never delete the
lock key unless the value stored under it equals the caller's id; `reset`
deletes the lock key unconditionally, whatever the stored value is. -/
theorem C1_lock_key_deletion_guard :
    (∀ (st : RedisState) (id : String) (x : ℤ),
        st.lockVal ≠ some id → (unlockScript st id x).1 = st) ∧
    (∀ (st : RedisState) (id : String) (x : ℤ),
        st.lockVal ≠ some id → (lockRelease st id x).1 = st) ∧
    (∀ (st : RedisState) (id : String) (x : ℤ), (lockReset st id x).lockVal = none) := by
  refine ⟨fun st id x h => ?_, fun st id x h => ?_, fun st id x => rfl⟩
  · simp [unlockScript, h]
  · simp [lockRelease, unlockScript, h]

/-- Witness for C1: concrete non-owner release attempts leave the key, a
concrete reset deletes it. -/
theorem C1_lock_key_deletion_guard_witness :
    (unlockScript ⟨some "b", none, [], none⟩ "a" 1000).1 = ⟨some "b", none, [], none⟩ ∧
    (lockRelease ⟨some "b", none, [], none⟩ "a" 1000).1 = ⟨some "b", none, [], none⟩ ∧
    (lockReset ⟨some "c", none, [], none⟩ "d" 500).lockVal = none :=
  ⟨C1_lock_key_deletion_guard.1 _ "a" 1000 (by decide),
   C1_lock_key_deletion_guard.2.1 _ "a" 1000 (by decide),
   C1_lock_key_deletion_guard.2.2 _ "d" 500⟩

/-- C2: `release` runs `UNLOCK_SCRIPT`.  When the stored value differs
from the handle's id (including an absent key) the script returns 1, the
state — in particular the lock key — is unchanged and `release` raises
`NotAcquired`; when it matches, the script deletes the lock key and
returns 0 and `release` returns normally; every other non-zero code is
mapped to a `RuntimeError`. -/
theorem C2_release_contract :
    (∀ (st : RedisState) (id : String) (x : ℤ), st.lockVal ≠ some id →
        unlockScript st id x = (st, 1) ∧
        lockRelease st id x = (st, .error .notAcquired)) ∧
    (∀ (st : RedisState) (id : String) (x : ℤ), st.lockVal = some id →
        (unlockScript st id x).2 = 0 ∧ (unlockScript st id x).1.lockVal = none ∧
        (lockRelease st id x).2 = .ok ()) ∧
    (∀ e : ℕ, e ≠ 0 → e ≠ 1 → releaseDispatch e = .error (.runtimeError e)) := by
  refine ⟨fun st id x h => ?_, fun st id x h => ?_, fun e h0 h1 => ?_⟩
  · constructor <;> simp [unlockScript, lockRelease, releaseDispatch, h]
  · refine ⟨?_, ?_, ?_⟩ <;> simp [unlockScript, lockRelease, releaseDispatch, h]
  · simp [releaseDispatch, h0, h1]

/-- Witness for C2: a non-owner, an owner and an unexpected return code. -/
theorem C2_release_contract_witness :
    (unlockScript ⟨none, none, [], none⟩ "a" 1000 = (⟨none, none, [], none⟩, 1) ∧
      lockRelease ⟨none, none, [], none⟩ "a" 1000 =
        (⟨none, none, [], none⟩, .error .notAcquired)) ∧
    ((unlockScript ⟨some "o", some 30, [], none⟩ "o" 1000).2 = 0 ∧
      (unlockScript ⟨some "o", some 30, [], none⟩ "o" 1000).1.lockVal = none ∧
      (lockRelease ⟨some "o", some 30, [], none⟩ "o" 1000).2 = .ok ()) ∧
    releaseDispatch 7 = .error (.runtimeError 7) :=
  ⟨C2_release_contract.1 _ "a" 1000 (by decide),
   C2_release_contract.2.1 _ "o" 1000 (by decide),
   C2_release_contract.2.2 7 (by decide) (by decide)⟩

/-- C3: `extend` runs `EXTEND_SCRIPT` after resolving its `expire`
argument.  Code 1 (stored value differs or key absent) raises
`NotAcquired`; code 2 (key owned but without TTL) raises `NotExpirable`;
any other non-zero code raises a `RuntimeError`; code 0 (owner matches, a
TTL exists) sets the TTL to the new expire and returns normally. -/
theorem C3_extend_contract :
    (∀ (st : RedisState) (id : String) (e : ℤ), st.lockVal ≠ some id →
        extendScript st id e = (st, 1) ∧
        extendCore st id e = (st, .error .notAcquired)) ∧
    (∀ (st : RedisState) (id : String) (e : ℤ),
        st.lockVal = some id → st.lockTTL = none →
        extendScript st id e = (st, 2) ∧
        extendCore st id e = (st, .error .notExpirable)) ∧
    (∀ (st : RedisState) (id : String) (e t : ℤ),
        st.lockVal = some id → st.lockTTL = some t → 0 ≤ t →
        extendScript st id e = ({ st with lockTTL := some e }, 0) ∧
        extendCore st id e = ({ st with lockTTL := some e }, .ok ())) ∧
    (∀ c : ℕ, c ≠ 0 → c ≠ 1 → c ≠ 2 → extendDispatch c = .error (.runtimeError c)) := by
  refine ⟨fun st id e h => ?_, fun st id e h1 h2 => ?_,
      fun st id e t h1 h2 ht => ?_, fun c h0 h1 h2 => ?_⟩
  · constructor <;> simp [extendScript, extendCore, extendDispatch, h]
  · obtain ⟨v, ttl, sig, sttl⟩ := st
    simp only [] at h1 h2
    subst h1; subst h2
    constructor <;> simp [extendScript, extendCore, extendDispatch, redisTTL]
  · obtain ⟨v, ttl, sig, sttl⟩ := st
    simp only [] at h1 h2
    subst h1; subst h2
    constructor <;>
      simp [extendScript, extendCore, extendDispatch, redisTTL, not_lt.mpr ht]
  · simp [extendDispatch, h0, h1, h2]

/-- Witness for C3: a non-owner, an owner without TTL, an owner with TTL,
and an unexpected return code. -/
theorem C3_extend_contract_witness :
    (extendScript ⟨some "b", some 9, [], none⟩ "a" 5 = (⟨some "b", some 9, [], none⟩, 1) ∧
      extendCore ⟨some "b", some 9, [], none⟩ "a" 5 =
        (⟨some "b", some 9, [], none⟩, .error .notAcquired)) ∧
    (extendScript ⟨some "a", none, [], none⟩ "a" 5 = (⟨some "a", none, [], none⟩, 2) ∧
      extendCore ⟨some "a", none, [], none⟩ "a" 5 =
        (⟨some "a", none, [], none⟩, .error .notExpirable)) ∧
    (extendScript ⟨some "a", some 9, [], none⟩ "a" 5 = (⟨some "a", some 5, [], none⟩, 0) ∧
      extendCore ⟨some "a", some 9, [], none⟩ "a" 5 =
        (⟨some "a", some 5, [], none⟩, .ok ())) ∧
    extendDispatch 7 = .error (.runtimeError 7) :=
  ⟨C3_extend_contract.1 _ "a" 5 (by decide),
   C3_extend_contract.2.1 _ "a" 5 rfl rfl,
   C3_extend_contract.2.2.1 _ "a" 5 9 rfl rfl (by decide),
   C3_extend_contract.2.2.2 7 (by decide) (by decide) (by decide)⟩

/-- C4 as stated is false: `acquire(blocking=True, timeout=0)` does not
raise `InvalidTimeout`.  `if timeout:` is falsy for 0, so the validation
block is skipped entirely and the call proceeds to the acquisition loop
(here with an empty trace, so the loop result is still pending). -/
theorem C4_zero_timeout_counterexample :
    lockAcquire ⟨some 30, "me", none, 1000⟩ ⟨none, none, [], none⟩ true (some 0) [] =
      .ok (none, []) ∧
    lockAcquire ⟨some 30, "me", none, 1000⟩ ⟨none, none, [], none⟩ true (some 0) [] ≠
      .error .invalidTimeout :=
  ⟨rfl, by decide⟩

/-- C4 (amended): with a non-held handle, `blocking=False` together with a
non-`None` timeout raises `TimeoutNotUsable`; a negative timeout raises
`InvalidTimeout`; a timeout of 0 is falsy and skips validation, behaving
exactly like no timeout at all; without auto-renewal, a positive timeout
exceeding a truthy `expire` raises `TimeoutTooLarge`. -/
theorem C4_acquire_validation :
    (∀ (L : LockState) (st : RedisState) (timeout : Option ℤ) (trace : List OracleStep),
        lockHeld L st = false → timeout ≠ none →
        lockAcquire L st false timeout trace = .error .timeoutNotUsable) ∧
    (∀ (L : LockState) (st : RedisState) (t : ℤ) (trace : List OracleStep),
        lockHeld L st = false → t < 0 →
        lockAcquire L st true (some t) trace = .error .invalidTimeout) ∧
    (∀ (L : LockState) (st : RedisState) (t : ℤ) (trace : List OracleStep),
        lockHeld L st = false → 0 < t → pyTruthyZ L.expire = true →
        pyTruthyQ L.renewalInterval = false → L.expire.getD 0 < t →
        lockAcquire L st true (some t) trace = .error .timeoutTooLarge) ∧
    (∀ (L : LockState) (st : RedisState) (trace : List OracleStep),
        lockAcquire L st true (some 0) trace = lockAcquire L st true none trace) := by
  refine ⟨fun L st timeout trace hh ht => ?_, fun L st t trace hh ht => ?_,
      fun L st t trace hh ht he hr hlt => ?_, fun L st trace => ?_⟩
  · simp [lockAcquire, acquireChecks, hh, ht]
  · have htr : pyTruthyZ (some t) = true := by simp [pyTruthyZ]; omega
    simp [lockAcquire, acquireChecks, hh, htr, ht]
  · have htr : pyTruthyZ (some t) = true := by simp [pyTruthyZ]; omega
    simp [lockAcquire, acquireChecks, hh, htr, he, hr, hlt, not_lt.mpr (le_of_lt ht)]
  · simp [lockAcquire, acquireChecks, pyTruthyZ, blpopTimeout]

/-- Witness for C4: concrete calls exercising each validation branch; the
handle has `expire=30`, no auto-renewal, and the lock key is absent. -/
theorem C4_acquire_validation_witness :
    lockAcquire ⟨some 30, "me", none, 1000⟩ ⟨none, none, [], none⟩ false (some 1) [] =
      .error .timeoutNotUsable ∧
    lockAcquire ⟨some 30, "me", none, 1000⟩ ⟨none, none, [], none⟩ true (some (-1)) [] =
      .error .invalidTimeout ∧
    lockAcquire ⟨some 30, "me", none, 1000⟩ ⟨none, none, [], none⟩ true (some 31) [] =
      .error .timeoutTooLarge ∧
    lockAcquire ⟨some 30, "me", none, 1000⟩ ⟨none, none, [], none⟩ true (some 0) [] =
      lockAcquire ⟨some 30, "me", none, 1000⟩ ⟨none, none, [], none⟩ true none [] :=
  ⟨C4_acquire_validation.1 _ _ _ [] (by decide) (by decide),
   C4_acquire_validation.2.1 _ _ _ [] (by decide) (by decide),
   C4_acquire_validation.2.2.1 _ _ _ [] (by decide) (by decide) (by decide) (by decide) (by decide),
   C4_acquire_validation.2.2.2 _ _ []⟩

/-- C5 as stated is false: the effective `BLPOP` timeout is
`timeout or expire or 0`, not `min(timeout, expire)`.  With auto-renewal
enabled (`expire=3`, renewal interval `2`), `acquire(timeout=10)` passes
validation and issues its `BLPOP` with timeout 10, while
`min(timeout, expire) = 3`. -/
theorem C5_blpop_timeout_counterexample :
    blpopTimeout (some 10) (some 3) = 10 ∧ min (10:ℤ) 3 = 3 ∧
    lockAcquire ⟨some 3, "me", some 2, 1000⟩ ⟨some "other", none, [], none⟩ true (some 10)
        [⟨false, true⟩] = .ok (none, [10]) :=
  ⟨by decide, by decide, rfl⟩

/-- C5 (amended): every `BLPOP` issued by a blocking acquire uses the
timeout `timeout or expire or 0` (the caller's truthy timeout, else the
handle's truthy expire, else 0 meaning wait forever); when both are nil
the value is 0; a non-blocking acquire that finds the lock taken returns
`False` after its single `SET NX`, issuing no `BLPOP` at all. -/
theorem C5_blpop_effective_timeout :
    (∀ (L : LockState) (st : RedisState) (timeout : Option ℤ) (trace : List OracleStep)
        (p : Option Bool × List ℤ),
        lockAcquire L st true timeout trace = .ok p →
        ∀ t ∈ p.2, t = blpopTimeout timeout L.expire) ∧
    blpopTimeout none none = 0 ∧
    (∀ (L : LockState) (st : RedisState) (s : OracleStep) (trace : List OracleStep),
        lockHeld L st = false → s.setnxOk = false →
        lockAcquire L st false none (s :: trace) = .ok (some false, [])) := by
  refine ⟨fun L st timeout trace p hp t ht => ?_, by decide,
      fun L st s trace hh hs => ?_⟩
  · unfold lockAcquire at hp
    rcases hc : acquireChecks L st true timeout with e | u
    · rw [hc] at hp; exact absurd hp (by simp)
    · rw [hc] at hp
      simp only [Except.ok.injEq] at hp
      subst hp
      exact acquireLoop_blpop_timeouts trace true _ _ false t ht
  · simp [lockAcquire, acquireChecks, pyTruthyZ, hh, acquireLoop, hs]

/-- Witness for C5: a blocking acquire on a taken lock whose handle has
`expire=5` and no caller timeout issues its `BLPOP`s with timeout 5; a
non-blocking acquire on a taken lock returns `False` with no `BLPOP`. -/
theorem C5_blpop_effective_timeout_witness :
    (∀ t ∈ [(5:ℤ)], t = blpopTimeout none (some 5)) ∧
    blpopTimeout none none = 0 ∧
    lockAcquire ⟨some 5, "me", none, 1000⟩ ⟨some "other", none, [], none⟩ false none
      [⟨false, false⟩] = .ok (some false, []) :=
  ⟨C5_blpop_effective_timeout.1 ⟨some 5, "me", none, 1000⟩ ⟨some "other", none, [], none⟩
      none [⟨false, true⟩, ⟨true, false⟩] (some true, [5]) (by decide),
   C5_blpop_effective_timeout.2.1,
   C5_blpop_effective_timeout.2.2 _ _ ⟨false, false⟩ [] (by decide) rfl⟩

/-- C6: in the blocking loop with a truthy caller timeout, an empty
`BLPOP` makes the very next `SET NX` attempt decisive: success acquires
the lock, failure returns `False`.  When `BLPOP` returned an element, or
the caller supplied no truthy timeout, the loop just continues. -/
theorem C6_timeout_budget :
    (∀ (s₂ : OracleStep) (rest : List OracleStep) (bt : ℤ),
        (acquireLoop true bt true false (⟨false, false⟩ :: s₂ :: rest)).1 =
          some s₂.setnxOk) ∧
    (∀ (s : OracleStep) (rest : List OracleStep) (bt : ℤ) (tmo : Bool),
        s.setnxOk = false → (s.blpopGot = true ∨ tmo = false) →
        (acquireLoop true bt tmo false (s :: rest)).1 =
          (acquireLoop true bt tmo false rest).1) := by
  constructor
  · intro s₂ rest bt
    cases hs : s₂.setnxOk <;> simp [acquireLoop, hs]
  · intro s rest bt tmo hs hg
    rcases hg with hg | hg <;> simp [acquireLoop, hs, hg]

/-- Witness for C6: after an empty `BLPOP` under `timeout`, one failing
attempt ends the loop with `False`; after a successful `BLPOP` wake the
loop keeps going (two traces differing only in the tail agree). -/
theorem C6_timeout_budget_witness :
    (acquireLoop true 7 true false [⟨false, false⟩, ⟨false, true⟩]).1 = some false ∧
    (acquireLoop true 7 true false [⟨false, true⟩, ⟨false, false⟩, ⟨false, true⟩]).1 =
      (acquireLoop true 7 true false [⟨false, false⟩, ⟨false, true⟩]).1 :=
  ⟨C6_timeout_budget.1 ⟨false, true⟩ [] 7,
   C6_timeout_budget.2 ⟨false, true⟩ [⟨false, false⟩, ⟨false, true⟩] 7 true rfl (Or.inl rfl)⟩

/-- C7 as stated is false for bytes ids: a bytes id that is not valid
ASCII is base64-encoded, not decoded with replacement characters.  For the
single byte `0xFF` the constructor stores `"/w=="`, while decoding with
replacement would store `"�"`. -/
theorem C7_bytes_id_counterexample :
    idFromBytes [255] = "/w==" ∧
    asciiDecodeReplace [255] = String.mk [Char.ofNat 0xFFFD] ∧
    idFromBytes [255] ≠ asciiDecodeReplace [255] :=
  ⟨rfl, rfl, by decide⟩

/-- C7 (amended): the default id base64-encodes 18 random bytes into a
24-character printable-ASCII string, and the encoding is injective on byte
sequences (so all `256^18 ≥ 2^128` draws stay distinct); a bytes id is
decoded as ASCII when every byte is valid ASCII, and otherwise (on
`UnicodeDecodeError`) the bytes are base64-encoded — not replaced. -/
theorem C7_id_generation :
    (∀ raw : List ℕ, raw.length = 18 → (freshId raw).length = 24) ∧
    (∀ raw : List ℕ, ∀ c ∈ b64encode raw, 33 ≤ c.toNat ∧ c.toNat ≤ 126) ∧
    (∀ raw raw' : List ℕ, (∀ b ∈ raw, b < 256) → (∀ b ∈ raw', b < 256) →
        b64encode raw = b64encode raw' → raw = raw') ∧
    (2:ℕ) ^ 128 ≤ 256 ^ 18 ∧
    (∀ bs : List ℕ, bs.all (fun b => b < 128) = true →
        idFromBytes bs = String.mk (bs.map Char.ofNat)) ∧
    (∀ bs : List ℕ, bs.all (fun b => b < 128) = false →
        idFromBytes bs = String.mk (b64encode bs)) := by
  refine ⟨fun raw h => ?_, b64encode_printable,
      fun raw raw' h h' henc => ?_, ?_, fun bs h => ?_, fun bs h => ?_⟩
  · show (b64encode raw).length = 24
    rw [b64encode_length, h]
  · rw [← b64decode_b64encode raw h, ← b64decode_b64encode raw' h', henc]
  · calc (2:ℕ) ^ 128 ≤ 2 ^ 144 := Nat.pow_le_pow_right (by norm_num) (by norm_num)
      _ = 256 ^ 18 := by norm_num
  · simp [idFromBytes, h]
  · simp [idFromBytes, h]

/-- Witness for C7: an all-zero 18-byte draw, two distinct concrete draws,
and the two bytes-id branches at concrete inputs. -/
theorem C7_id_generation_witness :
    (freshId [0, 0, 0, 0, 0, 0, 0, 0, 0, 0, 0, 0, 0, 0, 0, 0, 0, 0]).length = 24 ∧
    ([17, 254] : List ℕ) = [17, 254] ∧
    idFromBytes [104, 105] = String.mk ([104, 105].map Char.ofNat) ∧
    idFromBytes [200] = String.mk (b64encode [200]) :=
  ⟨C7_id_generation.1 _ (by decide),
   C7_id_generation.2.2.1 [17, 254] [17, 254] (by decide) (by decide) rfl,
   C7_id_generation.2.2.2.2.1 [104, 105] (by decide),
   C7_id_generation.2.2.2.2.2 [200] (by decide)⟩

/-- C8: there is no client-side held flag — `acquire` raises
`AlreadyAcquired` exactly when the value currently stored under the lock
key equals the handle's id, whatever the other arguments are.  In
particular a fresh handle constructed with the current owner's id raises
`AlreadyAcquired`, while a handle whose key has expired or is owned under
a different id proceeds past that check. -/
theorem C8_already_acquired_iff_owner (L : LockState) (st : RedisState) (blocking : Bool)
    (timeout : Option ℤ) (trace : List OracleStep) :
    lockAcquire L st blocking timeout trace = .error .alreadyAcquired ↔
      getOwnerId st = some L.id := by
  by_cases h : getOwnerId st = some L.id
  · simp [lockAcquire, acquireChecks, lockHeld, h]
  · simp only [lockAcquire, acquireChecks, lockHeld, h, iff_false]
    simp only [decide_eq_true_eq]
    split_ifs <;> simp_all

/-- C9 as stated is false: the constructor accepts the negative expire
`-1/2` without `ValueError` (Python `int(-0.5)` is `0`, and `0 < 0` fails)
and stores the integer 0 — not `None`. -/
theorem C9_negative_expire_counterexample :
    (⟨-1, 2, by decide, by decide⟩ : ℚ) < 0 ∧
    lockInit [] (some ⟨-1, 2, by decide, by decide⟩) (.ofStr "x") false 1000 =
      .ok ⟨some 0, "x", none, 1000⟩ :=
  ⟨by decide, rfl⟩

/-- C9 (amended): `auto_renewal` with `expire=None` raises `ValueError`
before the expire processing; an expire whose truncation `int(expire)` is
negative raises `ValueError` (so negatives in `(-1, 0)` do not — they are
stored as the integer 0); expire 0 is stored as `None`; any other expire
with nonnegative truncation is truncated to an integer and stored. -/
theorem C9_init_expire (rb : List ℕ) (idArg : PyId) (se : ℤ) :
    lockInit rb none idArg true se = .error .valueError ∧
    (∀ (q : ℚ) (ar : Bool), pyInt q < 0 →
        lockInit rb (some q) idArg ar se = .error .valueError) ∧
    lockInit rb (some 0) idArg false se = .ok ⟨none, resolveId rb idArg, none, se⟩ ∧
    (∀ q : ℚ, q ≠ 0 → 0 ≤ pyInt q →
        lockInit rb (some q) idArg false se =
          .ok ⟨some (pyInt q), resolveId rb idArg, none, se⟩) := by
  refine ⟨by simp [lockInit], fun q ar h => ?_, by simp [lockInit, pyTruthyQ],
      fun q hq h => ?_⟩
  · have hne : q ≠ 0 := pyInt_ne_zero_of_neg h
    simp [lockInit, pyTruthyQ, hne, h]
  · simp [lockInit, pyTruthyQ, hq, not_lt.mpr h]

/-- Witness for C9: `auto_renewal` without expire, `expire=-3/2`,
`expire=0` and `expire=5/2` at concrete arguments. -/
theorem C9_init_expire_witness :
    lockInit [] none (.ofStr "w") true 1000 = .error .valueError ∧
    lockInit [] (some ⟨-3, 2, by decide, by decide⟩) (.ofStr "w") true 1000 =
      .error .valueError ∧
    lockInit [] (some 0) (.ofStr "w") false 1000 = .ok ⟨none, "w", none, 1000⟩ ∧
    lockInit [] (some ⟨5, 2, by decide, by decide⟩) (.ofStr "w") false 1000 =
      .ok ⟨some 2, "w", none, 1000⟩ :=
  ⟨(C9_init_expire [] (.ofStr "w") 1000).1,
   (C9_init_expire [] (.ofStr "w") 1000).2.1 _ true (by decide),
   (C9_init_expire [] (.ofStr "w") 1000).2.2.1,
   (C9_init_expire [] (.ofStr "w") 1000).2.2.2 _ (by decide) (by decide)⟩

/-- C10: `__enter__` performs a blocking `acquire()` with no timeout; an
entry that returns normally implies the acquire returned `True`; the
`AssertionError` branch fires exactly when the acquire returned `False` —
which the blocking loop without a truthy timeout can in fact never
produce; errors from the acquire propagate; and `__exit__` calls
`release()` regardless of the exception information it receives. -/
theorem C10_context_manager :
    (∀ (L : LockState) (st : RedisState) (trace : List OracleStep),
        lockEnter L st trace = .ok (some ()) →
        ∃ calls : List ℤ, lockAcquire L st true none trace = .ok (some true, calls)) ∧
    (∀ (L : LockState) (st : RedisState) (trace : List OracleStep),
        lockEnter L st trace = .error .assertionError ↔
          ∃ calls : List ℤ, lockAcquire L st true none trace = .ok (some false, calls)) ∧
    (∀ (bt : ℤ) (trace : List OracleStep),
        (acquireLoop true bt false false trace).1 ≠ some false) ∧
    (∀ (L : LockState) (st : RedisState) (trace : List OracleStep) (e : PyError),
        lockAcquire L st true none trace = .error e → lockEnter L st trace = .error e) ∧
    (∀ (exc exc' : Option PyError) (st : RedisState) (L : LockState),
        lockExit exc st L = lockExit exc' st L ∧
        lockExit exc st L = lockRelease st L.id L.signalExpire) := by
  refine ⟨fun L st trace h => ?_, fun L st trace => ?_,
      fun bt trace => acquireLoop_no_false_of_falsy_timeout trace bt,
      fun L st trace e h => ?_, fun exc exc' st L => ⟨rfl, rfl⟩⟩
  · unfold lockEnter at h
    rcases hacq : lockAcquire L st true none trace with e | ⟨b?, calls⟩
    · rw [hacq] at h; exact absurd h (by simp)
    · rw [hacq] at h
      rcases b? with _ | b
      · exact absurd h (by simp)
      · cases b
        · exact absurd h (by simp)
        · exact ⟨calls, rfl⟩
  · constructor
    · intro h
      unfold lockEnter at h
      rcases hacq : lockAcquire L st true none trace with e | ⟨b?, calls⟩
      · rw [hacq] at h
        simp only [Except.error.injEq] at h
        subst h
        exact absurd hacq (by
          unfold lockAcquire
          rcases hc : acquireChecks L st true none with e' | u
          · have : e' ≠ PyError.assertionError := by
              unfold acquireChecks at hc
              split_ifs at hc <;> simp only [Except.error.injEq] at hc <;> simp [← hc]
            simp [this]
          · simp)
      · rw [hacq] at h
        rcases b? with _ | b
        · exact absurd h (by simp)
        · cases b
          · exact ⟨calls, rfl⟩
          · exact absurd h (by simp)
    · rintro ⟨calls, hacq⟩
      unfold lockEnter
      rw [hacq]
      simp
  · unfold lockEnter
    rw [h]

/-- Witness for C10: a one-step successful entry, an entry on an
already-owned key propagating `AlreadyAcquired`, and an exit invoked with
exception information still performing the release. -/
theorem C10_context_manager_witness :
    (∃ calls : List ℤ, lockAcquire ⟨none, "x", none, 1000⟩ ⟨none, none, [], none⟩ true none
        [⟨true, false⟩] = .ok (some true, calls)) ∧
    lockEnter ⟨none, "x", none, 1000⟩ ⟨some "x", none, [], none⟩ [] =
      .error .alreadyAcquired ∧
    lockExit (some .notAcquired) ⟨some "x", none, [], none⟩ ⟨none, "x", none, 1000⟩ =
      lockRelease ⟨some "x", none, [], none⟩ "x" 1000 :=
  ⟨C10_context_manager.1 _ _ _ (by decide),
   C10_context_manager.2.2.2.1 _ _ _ .alreadyAcquired (by decide),
   (C10_context_manager.2.2.2.2 (some .notAcquired) none _ _).2⟩

end RedisLock
